import Mathlib

set_option maxHeartbeats 1000000

/-!
Shallow embedding of the Stream Session and Threat Assessment Pipeline of the
aerialintelligence repository.

The threat engine lives in the ThreatDetector class; stream lifecycle and
retention live in StreamManagementService and FileCleanupService of server.ts.
JavaScript regular-expression tests over the fixed pattern table are embedded
through a small executable matcher covering exactly the constructs those
patterns use: literals, bounded any-character gaps, alternation, word
boundaries. JS numbers carrying the integer scores are embedded as Int.
-/

/-- JS word-character class (backslash-w): ASCII letters, digits, underscore. -/
def isWordChar (c : Char) : Bool := c.isAlphanum || c == '_'

/-- JS dot: any character except a line terminator. -/
def dotChar (c : Char) : Bool := !(c == '\n' || c == '\r')

/-- Abstract syntax of the regex fragment used by the threat pattern table. -/
inductive RE where
  | fail : RE
  | eps : RE
  | lit : List Char → RE
  | gap : Nat → RE
  | wb : RE
  | seq : RE → RE → RE
  | alt : RE → RE → RE

/-- All ways for a bounded gap (JS dot-brace-0-comma-n) to consume characters:
returns every (previous character, remaining input) state. -/
def gapMatch : Nat → Option Char → List Char → List (Option Char × List Char)
  | 0, p, s => [(p, s)]
  | n+1, p, s =>
    (p, s) :: (match s with
      | [] => []
      | c :: rest => if dotChar c then gapMatch n (some c) rest else [])

/-- Whether an optional character is a word character (none = string edge). -/
def isWordOpt : Option Char → Bool
  | some c => isWordChar c
  | none => false

/-- JS word boundary: exactly one side of the position is a word character. -/
def atBoundary (p : Option Char) (s : List Char) : Bool :=
  isWordOpt p != (match s with | c :: _ => isWordChar c | [] => false)

/-- Nondeterministic matcher: all (previous character, rest) states reachable
after matching the regex at the current position. -/
def matchRE : RE → Option Char → List Char → List (Option Char × List Char)
  | .fail, _, _ => []
  | .eps, p, s => [(p, s)]
  | .lit l, p, s =>
    if l.isPrefixOf s then [(if l.isEmpty then p else l.getLast?, s.drop l.length)] else []
  | .gap n, p, s => gapMatch n p s
  | .wb, p, s => if atBoundary p s then [(p, s)] else []
  | .seq a b, p, s => (matchRE a p s).flatMap (fun pr => matchRE b pr.1 pr.2)
  | .alt a b, p, s => matchRE a p s ++ matchRE b p s

/-- Unanchored search from every position, tracking the previous character. -/
def reTestAux (r : RE) : Option Char → List Char → Bool
  | p, [] => !(matchRE r p []).isEmpty
  | p, c :: rest => !(matchRE r p (c :: rest)).isEmpty || reTestAux r (some c) rest

/-- JS RegExp.test over the embedded fragment. -/
def reTest (r : RE) (text : List Char) : Bool := reTestAux r none text

/-- Literal word (patterns are written lowercase; input is lowercased). -/
def lw (s : String) : RE := .lit s.data

/-- Alternation of a list of branches. -/
def alts (rs : List RE) : RE := rs.foldr RE.alt .fail

/-- Bounded gap of up to ten arbitrary characters, as used by every pattern. -/
def g10 : RE := .gap 10

/-- Wrap a body in word boundaries on both sides. -/
def wordPat (body : RE) : RE := .seq .wb (.seq body .wb)

/-- A compiled pattern together with its JS source text (used in reasons). -/
structure Pat where
  src : String
  re : RE

/-- CRITICAL-tier patterns of ThreatDetector. -/
def criticalPats : List Pat := [
  ⟨"\\b(gun|weapon|knife|pistol|rifle|firearm|armed|shooting|violence|fight|attack|assault)\\b",
    wordPat (alts [lw "gun", lw "weapon", lw "knife", lw "pistol", lw "rifle", lw "firearm",
      lw "armed", lw "shooting", lw "violence", lw "fight", lw "attack", lw "assault"])⟩,
  ⟨"\\b(breaking|smashing|destroying|vandal|damage|theft|steal|rob|burglar)\\b",
    wordPat (alts [lw "breaking", lw "smashing", lw "destroying", lw "vandal", lw "damage",
      lw "theft", lw "steal", lw "rob", lw "burglar"])⟩,
  ⟨"\\b(fire|smoke|explosion|emergency|danger|alarm)\\b",
    wordPat (alts [lw "fire", lw "smoke", lw "explosion", lw "emergency", lw "danger", lw "alarm"])⟩,
  ⟨"\\b(breaking.\x7b0,10\x7d(in|into|through)|forced.\x7b0,10\x7dentry|intruder|trespass)\\b",
    wordPat (alts [.seq (lw "breaking") (.seq g10 (alts [lw "in", lw "into", lw "through"])),
      .seq (lw "forced") (.seq g10 (lw "entry")), lw "intruder", lw "trespass"])⟩,
  ⟨"\\b(climbing.\x7b0,10\x7d(fence|wall|window)|jumping.\x7b0,10\x7d(fence|barrier))\\b",
    wordPat (alts [.seq (lw "climbing") (.seq g10 (alts [lw "fence", lw "wall", lw "window"])),
      .seq (lw "jumping") (.seq g10 (alts [lw "fence", lw "barrier"]))])⟩]

/-- HIGH-tier patterns of ThreatDetector. -/
def highPats : List Pat := [
  ⟨"\\b(unauthorized|suspicious.\x7b0,10\x7dperson|unknown.\x7b0,10\x7dindividual|stranger)\\b",
    wordPat (alts [lw "unauthorized", .seq (lw "suspicious") (.seq g10 (lw "person")),
      .seq (lw "unknown") (.seq g10 (lw "individual")), lw "stranger"])⟩,
  ⟨"\\b(lurking|hiding|concealed|sneaking|prowling)\\b",
    wordPat (alts [lw "lurking", lw "hiding", lw "concealed", lw "sneaking", lw "prowling"])⟩,
  ⟨"\\b(mask|hood|face.\x7b0,10\x7dcovered|disguise)\\b",
    wordPat (alts [lw "mask", lw "hood", .seq (lw "face") (.seq g10 (lw "covered")), lw "disguise"])⟩,
  ⟨"\\b(loitering|lingering|watching|observing|surveillance|casing)\\b",
    wordPat (alts [lw "loitering", lw "lingering", lw "watching", lw "observing",
      lw "surveillance", lw "casing"])⟩,
  ⟨"\\b(unusual.\x7b0,10\x7dactivity|strange.\x7b0,10\x7dbehavior|odd.\x7b0,10\x7dmovement)\\b",
    wordPat (alts [.seq (lw "unusual") (.seq g10 (lw "activity")),
      .seq (lw "strange") (.seq g10 (lw "behavior")), .seq (lw "odd") (.seq g10 (lw "movement"))])⟩,
  ⟨"\\b(multiple.\x7b0,10\x7dpeople|group.\x7b0,10\x7dgathering|crowd)\\b",
    wordPat (alts [.seq (lw "multiple") (.seq g10 (lw "people")),
      .seq (lw "group") (.seq g10 (lw "gathering")), lw "crowd"])⟩]

/-- MEDIUM-tier patterns of ThreatDetector. -/
def mediumPats : List Pat := [
  ⟨"\\b(abandoned.\x7b0,10\x7d(bag|package|object)|unattended.\x7b0,10\x7ditem)\\b",
    wordPat (alts [.seq (lw "abandoned") (.seq g10 (alts [lw "bag", lw "package", lw "object"])),
      .seq (lw "unattended") (.seq g10 (lw "item"))])⟩,
  ⟨"\\b(vehicle.\x7b0,10\x7dparked|car.\x7b0,10\x7dstopped|truck.\x7b0,10\x7dwaiting)\\b",
    wordPat (alts [.seq (lw "vehicle") (.seq g10 (lw "parked")),
      .seq (lw "car") (.seq g10 (lw "stopped")), .seq (lw "truck") (.seq g10 (lw "waiting"))])⟩,
  ⟨"\\b(at.\x7b0,10\x7dnight|after.\x7b0,10\x7dhours|late.\x7b0,10\x7devening|dark)\\b",
    wordPat (alts [.seq (lw "at") (.seq g10 (lw "night")), .seq (lw "after") (.seq g10 (lw "hours")),
      .seq (lw "late") (.seq g10 (lw "evening")), lw "dark"])⟩,
  ⟨"\\b(running|moving.\x7b0,10\x7dquickly|hurried|rushed)\\b",
    wordPat (alts [lw "running", .seq (lw "moving") (.seq g10 (lw "quickly")),
      lw "hurried", lw "rushed"])⟩,
  ⟨"\\b(back.\x7b0,10\x7dand.\x7b0,10\x7dforth|pacing|circling)\\b",
    wordPat (alts [.seq (lw "back") (.seq g10 (.seq (lw "and") (.seq g10 (lw "forth")))),
      lw "pacing", lw "circling"])⟩]

/-- Mitigating (normal-activity) patterns of ThreatDetector. -/
def normalPats : List Pat := [
  ⟨"\\b(employee|worker|staff|security|guard|maintenance)\\b",
    wordPat (alts [lw "employee", lw "worker", lw "staff", lw "security", lw "guard",
      lw "maintenance"])⟩,
  ⟨"\\b(uniform|badge|identification|authorized)\\b",
    wordPat (alts [lw "uniform", lw "badge", lw "identification", lw "authorized"])⟩,
  ⟨"\\b(delivery|service|repair|cleaning)\\b",
    wordPat (alts [lw "delivery", lw "service", lw "repair", lw "cleaning"])⟩,
  ⟨"\\b(family|children|pet|dog|cat)\\b",
    wordPat (alts [lw "family", lw "children", lw "pet", lw "dog", lw "cat"])⟩,
  ⟨"\\b(normal.\x7b0,10\x7dactivity|routine|expected)\\b",
    wordPat (alts [.seq (lw "normal") (.seq g10 (lw "activity")), lw "routine", lw "expected"])⟩]

/-- Result of the pattern stage: score plus ordered reasons. -/
structure PatternResult where
  score : Int
  reasons : List String
deriving DecidableEq

/-- One tier loop of analyzePatterns: raise the running max to k for every
matching pattern of the tier and append its reason. -/
def tierFold (pats : List Pat) (k : Int) (reason : Pat → String) (text : List Char)
    (st : Int × List String) : Int × List String :=
  pats.foldl (fun acc p => if reTest p.re text then (max acc.1 k, acc.2 ++ [reason p]) else acc) st

def criticalReason (p : Pat) : String :=
  "Critical threat pattern detected: " ++ p.src.take 50 ++ "..."

def highReason (_ : Pat) : String := "High threat pattern detected: suspicious activity"

def mediumReason (_ : Pat) : String := "Medium threat pattern detected: unusual activity"

/-- JS String.toLowerCase over the characters of the input. -/
def lowerChars (s : String) : List Char := s.data.map Char.toLower

/-- ThreatDetector.analyzePatterns: tier checks raising a running maximum,
then a single mitigation step counting matching normal patterns, floored at 1. -/
def analyzePatterns (classificationText : String) : PatternResult :=
  let text := lowerChars classificationText
  let st1 := tierFold criticalPats 5 criticalReason text (1, [])
  let st2 := tierFold highPats 4 highReason text st1
  let st3 := tierFold mediumPats 3 mediumReason text st2
  let normalIndicators := (normalPats.filter (fun p => reTest p.re text)).length
  if normalIndicators > 0 then
    { score := max 1 (st3.1 - (normalIndicators : Int)),
      reasons := st3.2 ++ ["Normal activity indicators found (" ++ toString normalIndicators ++ ")"] }
  else
    { score := st3.1, reasons := st3.2 }

/-- Whether any pattern of a tier matches the (lowercased) text. -/
def tierMatches (pats : List Pat) (classificationText : String) : Bool :=
  pats.any (fun p => reTest p.re (lowerChars classificationText))

/-- How many mitigating pattern entries match the (lowercased) text. -/
def mitigatorCount (classificationText : String) : Nat :=
  (normalPats.filter (fun p => reTest p.re (lowerChars classificationText))).length

/-- Result of the contextual (AI) stage: score plus ordered factors. -/
structure ContextResult where
  score : Int
  factors : List String
deriving DecidableEq

/-- The severity table of the ThreatDetector configuration. -/
def severityLevels (s : String) : Option Int :=
  if s = "CRITICAL" then some 5
  else if s = "HIGH" then some 4
  else if s = "MEDIUM" then some 3
  else if s = "LOW" then some 2
  else if s = "NONE" then some 1
  else none

/-- JS whitespace class (backslash-s), ASCII part. -/
def jsSpace (c : Char) : Bool :=
  c == ' ' || c == '\t' || c == '\n' || c == '\r' || c == '\x0b' || c == '\x0c'

/-- Case-insensitive literal match at the head; returns the rest on success. -/
def matchCaseless : List Char → List Char → Option (List Char)
  | [], s => some s
  | _ :: _, [] => none
  | p :: ps, c :: cs => if p.toLower == c.toLower then matchCaseless ps cs else none

/-- First-match scan for a JS regex of shape TOKEN, whitespace star, then a
nonempty greedy run of characters satisfying takeP; returns the captured run. -/
def scanToken (tok : List Char) (takeP : Char → Bool) : List Char → Option (List Char)
  | [] => none
  | c :: rest =>
    match matchCaseless tok (c :: rest) with
    | some r1 =>
      let w := (r1.dropWhile jsSpace).takeWhile takeP
      if w.isEmpty then scanToken tok takeP rest else some w
    | none => scanToken tok takeP rest

/-- The THREAT_LEVEL capture of parseAISecurityAnalysis. -/
def findThreatLevel (chars : List Char) : Option (List Char) :=
  scanToken "threat_level:".data isWordChar chars

/-- The CONFIDENCE capture of parseAISecurityAnalysis. -/
def findConfidenceDigits (chars : List Char) : Option (List Char) :=
  scanToken "confidence:".data Char.isDigit chars

/-- The REASON capture of parseAISecurityAnalysis. -/
def findReasonText (chars : List Char) : Option (List Char) :=
  scanToken "reason:".data (fun c => !(c == '\n')) chars

/-- The fixed security vocabulary of the keyword fallback. -/
def securityKeywords : List String :=
  ["suspicious", "threat", "danger", "weapon", "break", "intrude",
   "unauthorized", "steal", "vandal", "alarm"]

/-- JS String.includes as substring containment over characters. -/
def containsSub (needle : List Char) : List Char → Bool
  | [] => needle.isEmpty
  | c :: rest => needle.isPrefixOf (c :: rest) || containsSub needle rest

/-- ThreatDetector.parseAISecurityAnalysis: structured THREAT_LEVEL,
CONFIDENCE, REASON captures, with a keyword-scan fallback when no structured
level token is present in a non-empty reply. -/
def parseAISecurityAnalysis (analysisOutput : String) : ContextResult :=
  let chars := analysisOutput.data
  let threatMatch := findThreatLevel chars
  let st1 : Int × List String :=
    match threatMatch with
    | some w =>
      let threatLevel := (String.mk w).toUpper
      ((severityLevels threatLevel).getD 1, ["AI threat assessment: " ++ threatLevel])
    | none => (0, [])
  let f2 := st1.2 ++ (match findConfidenceDigits chars with
    | some d => ["AI confidence: " ++ toString (((String.mk d).toNat?).getD 0) ++ "%"]
    | none => [])
  let f3 := f2 ++ (match findReasonText chars with
    | some r => ["AI reasoning: " ++ String.mk r]
    | none => [])
  if threatMatch = none ∧ chars.length > 0 then
    let foundKeywords := securityKeywords.filter
      (fun k => containsSub k.data (chars.map Char.toLower))
    if foundKeywords.length > 0 then
      { score := min ((foundKeywords.length : Int) + 1) 5,
        factors := f3 ++ ["AI detected security keywords: " ++ String.intercalate ", " foundKeywords] }
    else
      { score := st1.1, factors := f3 }
  else
    { score := st1.1, factors := f3 }

/-- Outcome of the remote contextual-scorer call (the spawned process):
ok with its stdout, or error with a failure message (timeout, non-zero exit,
spawn error, thrown error). -/
def RemoteOutcome := Except String String

/-- ThreatDetector.analyzeContext: disabled stage yields the neutral result;
any failure of the remote call degrades to score 0 with one diagnostic note. -/
def analyzeContext (detailedAnalysis : Bool) (remote : Except String String) : ContextResult :=
  if !detailedAnalysis then { score := 0, factors := [] }
  else
    match remote with
    | .ok output => parseAISecurityAnalysis output
    | .error msg => { score := 0, factors := ["Contextual analysis unavailable: " ++ msg] }

/-- The classification record handed to analyzeThreat; the classification
text may be absent (undefined), in which case the engine body throws. -/
structure ClassificationInput where
  classification : Option String
  image_file : Option String
deriving DecidableEq

/-- The assessment produced by the engine (timestamp omitted: wall-clock). -/
structure ThreatAnalysis where
  classification : Option String
  image_file : Option String
  threat_detected : Bool
  threat_level : String
  threat_score : Int
  threat_reasons : List String
  confidence : Int
  recommended_action : String
deriving DecidableEq

/-- ThreatDetector.calculateThreatLevel: the projection from score to level. -/
def calculateThreatLevel (score : Int) : String :=
  if score ≥ 5 then "CRITICAL"
  else if score ≥ 4 then "HIGH"
  else if score ≥ 3 then "MEDIUM"
  else if score ≥ 2 then "LOW"
  else "NONE"

/-- ThreatDetector.calculateConfidence: 40 for pattern reasons, 40 for
context factors, 20 bonus when both scores exceed 1, capped at 100. -/
def calculateConfidence (patternAnalysis : PatternResult) (contextAnalysis : ContextResult) : Int :=
  let c0 : Int := 0
  let c1 := if patternAnalysis.reasons.length > 0 then c0 + 40 else c0
  let c2 := if contextAnalysis.factors.length > 0 then c1 + 40 else c1
  let c3 := if patternAnalysis.score > 1 ∧ contextAnalysis.score > 1 then c2 + 20 else c2
  min c3 100

/-- ThreatDetector.getRecommendedAction: fixed lookup from the level. -/
def getRecommendedAction (threatLevel : String) (_score : Int) : String :=
  if threatLevel = "CRITICAL" then "immediate_response"
  else if threatLevel = "HIGH" then "investigate_immediately"
  else if threatLevel = "MEDIUM" then "monitor_closely"
  else if threatLevel = "LOW" then "log_for_review"
  else "none"

/-- The default notification threshold: config.notificationThreshold with
JS falsy fallback to 3. -/
def effectiveThreshold (cfg : Option Int) : Int :=
  match cfg with
  | some t => if t = 0 then 3 else t
  | none => 3

/-- The body of ThreatDetector.analyzeThreat inside its try block; an absent
classification makes toLowerCase throw, surfacing as an error value. -/
def analyzeThreatInner (threshold : Int) (detailedAnalysis : Bool)
    (input : ClassificationInput) (remote : Except String String) :
    Except String ThreatAnalysis :=
  match input.classification with
  | none => Except.error "Cannot read properties of undefined"
  | some text =>
    let patternAnalysis := analyzePatterns text
    let contextAnalysis :=
      if detailedAnalysis then analyzeContext detailedAnalysis remote
      else { score := 0, factors := [] }
    let finalScore := max patternAnalysis.score contextAnalysis.score
    let allReasons := patternAnalysis.reasons ++ contextAnalysis.factors
    let threatLevel := calculateThreatLevel finalScore
    Except.ok
      { classification := input.classification
        image_file := input.image_file
        threat_detected := finalScore ≥ threshold
        threat_level := threatLevel
        threat_score := finalScore
        threat_reasons := allReasons
        confidence := calculateConfidence patternAnalysis contextAnalysis
        recommended_action := getRecommendedAction threatLevel finalScore }

/-- The terminal assessment built by the catch block of analyzeThreat. -/
def errorAnalysis (input : ClassificationInput) (msg : String) : ThreatAnalysis :=
  { classification := input.classification
    image_file := input.image_file
    threat_detected := false
    threat_level := "ERROR"
    threat_score := 0
    threat_reasons := ["Analysis error: " ++ msg]
    confidence := 0
    recommended_action := "manual_review" }

/-- ThreatDetector.analyzeThreat: the engine boundary, converting any thrown
error into the terminal ERROR assessment. -/
def analyzeThreat (threshold : Int) (detailedAnalysis : Bool)
    (input : ClassificationInput) (remote : Except String String) : ThreatAnalysis :=
  match analyzeThreatInner threshold detailedAnalysis input remote with
  | .ok a => a
  | .error e => errorAnalysis input e

/-- State owned by StreamManagementService: the activeStreams map from stream
path to its interval handle, a fresh-handle counter, and the multiset of live
recurring interval timers (setInterval handles not yet cleared). -/
structure StreamState where
  activeStreams : List (String × Nat)
  nextId : Nat
  intervals : List Nat
deriving DecidableEq

/-- activeStreams.has(streamPath). -/
def hasStream (s : StreamState) (streamPath : String) : Bool :=
  s.activeStreams.any (fun e => e.1 == streamPath)

/-- StreamManagementService.startFrameCapture: no-op when a session exists,
otherwise schedule a recurring interval and record it in the map. -/
def startFrameCapture (streamPath : String) (s : StreamState) : StreamState :=
  if hasStream s streamPath then s
  else
    { activeStreams := s.activeStreams ++ [(streamPath, s.nextId)]
      nextId := s.nextId + 1
      intervals := s.intervals ++ [s.nextId] }

/-- StreamManagementService.stopFrameCapture: clear the interval and remove
the map entry when present, otherwise no-op. -/
def stopFrameCapture (streamPath : String) (s : StreamState) : StreamState :=
  match s.activeStreams.find? (fun e => e.1 == streamPath) with
  | some e =>
    { activeStreams := s.activeStreams.filter (fun e2 => !(e2.1 == streamPath))
      nextId := s.nextId
      intervals := s.intervals.erase e.2 }
  | none => s

/-- Number of sessions registered for one stream key. -/
def countKey (streamPath : String) (s : StreamState) : Nat :=
  s.activeStreams.countP (fun e => e.1 == streamPath)

/-- One directory entry as seen by the cleanup sweep. -/
structure FileEnt where
  name : String
  mtime : Nat
deriving DecidableEq

/-- Ascending order by modification time, the comparator of the sweep sort. -/
def byMtime (a b : FileEnt) : Prop := a.mtime ≤ b.mtime

instance : DecidableRel byMtime := fun a b => Nat.decLe a.mtime b.mtime

instance : IsTotal FileEnt byMtime := ⟨fun a b => Nat.le_total a.mtime b.mtime⟩

instance : IsTrans FileEnt byMtime := ⟨fun _ _ _ h1 h2 => Nat.le_trans h1 h2⟩

/-- Whether an entry matches the frame naming convention of the directory. -/
def isFrameFile (f : FileEnt) : Bool := f.name.startsWith "frame-"

/-- The matching files of the directory, sorted ascending by mtime. -/
def sortedFrameFiles (files : List FileEnt) : List FileEnt :=
  List.insertionSort byMtime (files.filter isFrameFile)

/-- The oldest excess entries the sweep will attempt to unlink. -/
def framesToDelete (files : List FileEnt) (maxFiles : Nat) : List FileEnt :=
  let frameFiles := sortedFrameFiles files
  if frameFiles.length > maxFiles then frameFiles.take (frameFiles.length - maxFiles) else []

/-- The names the sweep successfully unlinks: each file of the deletion slice
is attempted independently; unlinkFails models fs.unlinkSync throwing for a
given name, and a failure leaves only that file in place. -/
def deletedNames (files : List FileEnt) (maxFiles : Nat) (unlinkFails : String → Bool) :
    List String :=
  ((framesToDelete files maxFiles).filter (fun f => !unlinkFails f.name)).map (fun f => f.name)

/-- FileCleanupService.cleanupFrames: directory content after one sweep. -/
def cleanupFrames (files : List FileEnt) (maxFiles : Nat) (unlinkFails : String → Bool) :
    List FileEnt :=
  files.filter (fun f => !((deletedNames files maxFiles unlinkFails).contains f.name))

/-! ## Lemmas about the pattern stage -/

/-- The score component of one tier loop: the running maximum is raised to k
exactly when some pattern of the tier matches. -/
theorem tierFold_fst (ps : List Pat) (k : Int) (reason : Pat → String) (text : List Char) :
    ∀ st : Int × List String,
      (tierFold ps k reason text st).1 =
        if ps.any (fun p => reTest p.re text) then max st.1 k else st.1 := by
  induction ps with
  | nil => intro st; simp [tierFold]
  | cons p ps ih =>
    intro st
    by_cases h : reTest p.re text
    · have h2 := ih (max st.1 k, st.2 ++ [reason p])
      simp only [tierFold, List.foldl_cons] at h2 ⊢
      simp only [h, if_true, List.any_cons, Bool.true_or]
      rw [h2]
      by_cases h3 : ps.any (fun p => reTest p.re text) <;> simp [h3, max_assoc]
    · have h2 := ih st
      simp only [tierFold, List.foldl_cons] at h2 ⊢
      simp [h, h2, List.any_cons]

/-- The nested-if base severity reached after the three tier loops. -/
def tierBase (classificationText : String) : Int :=
  if tierMatches criticalPats classificationText then 5
  else if tierMatches highPats classificationText then 4
  else if tierMatches mediumPats classificationText then 3
  else 1

/-- Closed form of the pattern score: the maximum over matched tiers, then a
single mitigation step floored at 1. -/
theorem analyzePatterns_score_closed (s : String) :
    (analyzePatterns s).score =
      (if mitigatorCount s > 0 then max 1 (tierBase s - (mitigatorCount s : Int))
       else tierBase s) := by
  have hb :
      (tierFold mediumPats 3 mediumReason (lowerChars s)
        (tierFold highPats 4 highReason (lowerChars s)
          (tierFold criticalPats 5 criticalReason (lowerChars s) (1, [])))).1 = tierBase s := by
    rw [tierFold_fst, tierFold_fst, tierFold_fst]
    unfold tierBase tierMatches
    by_cases hc : criticalPats.any (fun p => reTest p.re (lowerChars s)) <;>
      by_cases hh : highPats.any (fun p => reTest p.re (lowerChars s)) <;>
      by_cases hm : mediumPats.any (fun p => reTest p.re (lowerChars s)) <;>
      simp [hc, hh, hm]
  unfold analyzePatterns mitigatorCount
  by_cases h0 : (normalPats.filter (fun p => reTest p.re (lowerChars s))).length > 0 <;>
    simp only [h0, if_true, if_false, reduceIte] <;> simp [hb]

/-- The tier base is one of 1, 3, 4, 5. -/
theorem tierBase_cases (s : String) :
    tierBase s = 1 ∨ tierBase s = 3 ∨ tierBase s = 4 ∨ tierBase s = 5 := by
  unfold tierBase
  by_cases hc : tierMatches criticalPats s <;>
    by_cases hh : tierMatches highPats s <;>
    by_cases hm : tierMatches mediumPats s <;>
    simp [hc, hh, hm]

/-- The pattern score always lies in the closed interval from 1 to 5. -/
theorem analyzePatterns_score_bounds (s : String) :
    1 ≤ (analyzePatterns s).score ∧ (analyzePatterns s).score ≤ 5 := by
  rw [analyzePatterns_score_closed]
  rcases tierBase_cases s with h | h | h | h <;>
    by_cases h0 : mitigatorCount s > 0 <;>
    simp only [h0, if_true, if_false, reduceIte, h] <;> constructor <;> omega

/-! ## Claims about the Pattern Scorer -/

/-- Claim C1: for every input text the pattern score lies in the interval
from 1 to 5; it is the maximum over matched tiers (critical 5, high 4,
medium 3, never summed), mitigated once after all tier checks by the count of
matching mitigators and floored at 1; hence adding a critical-tier phrase to
an otherwise-neutral text (one scoring 1) never decreases the score. -/
theorem c1_pattern_score_range (text : String) :
    (1 ≤ (analyzePatterns text).score ∧ (analyzePatterns text).score ≤ 5) ∧
    (analyzePatterns text).score =
      (if mitigatorCount text > 0 then max 1 (tierBase text - (mitigatorCount text : Int))
       else tierBase text) ∧
    (∀ u : String, (analyzePatterns text).score = 1 →
      (analyzePatterns text).score ≤ (analyzePatterns u).score) := by
  refine ⟨analyzePatterns_score_bounds text, analyzePatterns_score_closed text, ?_⟩
  intro u h1
  rw [h1]
  exact (analyzePatterns_score_bounds u).1

/-- Witness for C1 at a neutral text and that text with a weapon phrase added. -/
theorem c1_pattern_score_range_witness :
    (analyzePatterns "hello there").score = 1 ∧
    (analyzePatterns "hello there").score ≤ (analyzePatterns "hello there with a gun").score :=
  ⟨by decide, (c1_pattern_score_range "hello there").2.2 "hello there with a gun" (by decide)⟩

/-- Counterexample to claim C2: this text contains exactly one matching
critical-tier pattern (the weapon one), two mitigating phrases of the
uniform/badge kind and no other threat-tier match, yet scores 4, not 3:
both phrases sit in the same mitigating pattern entry, which counts once. -/
theorem c2_counterexample :
    criticalPats.countP
      (fun p => reTest p.re (lowerChars "a person with a gun in uniform with a badge")) = 1 ∧
    tierMatches highPats "a person with a gun in uniform with a badge" = false ∧
    tierMatches mediumPats "a person with a gun in uniform with a badge" = false ∧
    containsSub "uniform".data (lowerChars "a person with a gun in uniform with a badge") = true ∧
    containsSub "badge".data (lowerChars "a person with a gun in uniform with a badge") = true ∧
    mitigatorCount "a person with a gun in uniform with a badge" = 1 ∧
    (analyzePatterns "a person with a gun in uniform with a badge").score = 4 ∧
    ¬(analyzePatterns "a person with a gun in uniform with a badge").score = 3 := by
  refine ⟨by decide, by decide, by decide, by decide, by decide, by decide, by decide, ?_⟩
  decide

/-- Claim C2 as amended: mitigation counts matching mitigating pattern
entries, not phrases; a text with a critical-tier match, no high or medium
match, and exactly two matching mitigating entries scores 5 minus 2 = 3. -/
theorem c2_amended_two_mitigating_entries (text : String)
    (hcrit : tierMatches criticalPats text = true)
    (hhigh : tierMatches highPats text = false)
    (hmed : tierMatches mediumPats text = false)
    (hm : mitigatorCount text = 2) :
    (analyzePatterns text).score = 3 := by
  have h := analyzePatterns_score_closed text
  unfold tierBase at h
  rw [hcrit, hhigh, hmed, hm] at h
  simp at h
  rw [h]

/-- Witness for the amended C2: a weapon text whose mitigators hit two
distinct mitigating entries (guard, uniform). -/
theorem c2_amended_two_mitigating_entries_witness :
    (analyzePatterns "a man with a gun in a uniform talking to a guard").score = 3 :=
  c2_amended_two_mitigating_entries "a man with a gun in a uniform talking to a guard"
    (by decide) (by decide) (by decide) (by decide)

/-! ## Claims about the Threat Assessment Engine -/

/-- Claim C3: the assessment score is the maximum of the pattern-stage and
context-stage scores, the level is the pure projection of that score through
the fixed table, and triggered holds exactly when the score reaches the
notification threshold, whose default is 3. -/
theorem c3_engine_combination (threshold : Int) (detailed : Bool) (text : String)
    (img : Option String) (remote : Except String String) :
    (analyzeThreat threshold detailed ⟨some text, img⟩ remote).threat_score =
      max (analyzePatterns text).score
        (if detailed then (analyzeContext detailed remote).score else 0) ∧
    (analyzeThreat threshold detailed ⟨some text, img⟩ remote).threat_level =
      calculateThreatLevel (analyzeThreat threshold detailed ⟨some text, img⟩ remote).threat_score ∧
    ((analyzeThreat threshold detailed ⟨some text, img⟩ remote).threat_detected = true ↔
      (analyzeThreat threshold detailed ⟨some text, img⟩ remote).threat_score ≥ threshold) ∧
    (∀ s : Int, calculateThreatLevel s =
      if s ≥ 5 then "CRITICAL" else if s ≥ 4 then "HIGH" else if s ≥ 3 then "MEDIUM"
      else if s ≥ 2 then "LOW" else "NONE") ∧
    effectiveThreshold none = 3 := by
  unfold analyzeThreat analyzeThreatInner
  by_cases hd : detailed <;>
    simp [hd, calculateThreatLevel, effectiveThreshold, decide_eq_true_eq]

/-- Claim C4: a failed contextual-scorer call yields the degraded result with
score 0 and one diagnostic note, and the final assessment then carries the
pattern-only score, with triggered computed from that score. -/
theorem c4_degraded_mode (threshold : Int) (text : String) (img : Option String) (e : String) :
    analyzeContext true (.error e) =
      { score := 0, factors := ["Contextual analysis unavailable: " ++ e] } ∧
    (analyzeThreat threshold true ⟨some text, img⟩ (.error e)).threat_score =
      (analyzePatterns text).score ∧
    (analyzeThreat threshold true ⟨some text, img⟩ (.error e)).threat_detected =
      decide ((analyzePatterns text).score ≥ threshold) := by
  have hb := (analyzePatterns_score_bounds text).1
  refine ⟨rfl, ?_, ?_⟩ <;>
    simp [analyzeThreat, analyzeThreatInner, analyzeContext] <;>
    omega

/-- Counterexample to claim C5: the non-empty reply "ok" has no structured
THREAT_LEVEL token and zero matching vocabulary words, and the contextual
score is 0, while the claimed formula min(0 + 1, 5) gives 1. -/
theorem c5_counterexample :
    findThreatLevel "ok".data = none ∧
    "ok".data.length > 0 ∧
    (securityKeywords.filter
      (fun k => containsSub k.data ("ok".data.map Char.toLower))).length = 0 ∧
    (parseAISecurityAnalysis "ok").score = 0 ∧
    ¬(parseAISecurityAnalysis "ok").score = min ((0 : Int) + 1) 5 := by
  refine ⟨by decide, by decide, by decide, by decide, by decide⟩

/-- Claim C5 as amended: with no structured level token and a non-empty
reply, the contextual score is min(distinct-keyword-count + 1, 5) when at
least one vocabulary word matches, and 0 when none does. -/
theorem c5_amended_keyword_fallback (output : String)
    (hNoTok : findThreatLevel output.data = none)
    (hNonEmpty : output.data.length > 0) :
    ((securityKeywords.filter
        (fun k => containsSub k.data (output.data.map Char.toLower))).length > 0 →
      (parseAISecurityAnalysis output).score =
        min (((securityKeywords.filter
          (fun k => containsSub k.data (output.data.map Char.toLower))).length : Int) + 1) 5) ∧
    ((securityKeywords.filter
        (fun k => containsSub k.data (output.data.map Char.toLower))).length = 0 →
      (parseAISecurityAnalysis output).score = 0) := by
  have hNE : 0 < output.length := hNonEmpty
  constructor <;> intro hk <;>
    simp [parseAISecurityAnalysis, hNoTok, hNE, hk]

/-- Witness for the amended C5 at a reply with two matching keywords. -/
theorem c5_amended_keyword_fallback_witness :
    (parseAISecurityAnalysis "I saw a weapon and a threat").score = min ((2 : Int) + 1) 5 := by
  have h := (c5_amended_keyword_fallback "I saw a weapon and a threat"
    (by decide) (by decide)).1 (by decide)
  have h2 : (securityKeywords.filter
      (fun k => containsSub k.data ("I saw a weapon and a threat".data.map Char.toLower))).length
      = 2 := by decide
  rw [h2] at h
  exact h

/-- Claim C6: confidence is 40 for any pattern reasons, plus 40 for any
context factors, plus 20 when both scores exceed 1, capped at 100; it lies
in the interval from 0 to 100, and either method alone stays at or below 80. -/
theorem c6_confidence_formula (p : PatternResult) (c : ContextResult) :
    calculateConfidence p c =
      min ((if p.reasons.length > 0 then (40 : Int) else 0) +
        (if c.factors.length > 0 then (40 : Int) else 0) +
        (if p.score > 1 ∧ c.score > 1 then (20 : Int) else 0)) 100 ∧
    0 ≤ calculateConfidence p c ∧ calculateConfidence p c ≤ 100 ∧
    (c.factors.length = 0 → calculateConfidence p c ≤ 80) ∧
    (p.reasons.length = 0 → calculateConfidence p c ≤ 80) := by
  unfold calculateConfidence
  by_cases h1 : p.reasons.length > 0 <;> by_cases h2 : c.factors.length > 0 <;>
    by_cases h3 : p.score > 1 ∧ c.score > 1 <;>
    simp only [h1, h2, h3, if_true, if_false, reduceIte] <;>
    refine ⟨by norm_num, by norm_num, by norm_num, ?_, ?_⟩ <;> intro hx <;> omega

/-- Witness for C6 at a pattern-only result (no context factors). -/
theorem c6_confidence_formula_witness :
    calculateConfidence { score := 5, reasons := ["r"] } { score := 0, factors := [] } ≤ 80 :=
  (c6_confidence_formula { score := 5, reasons := ["r"] } { score := 0, factors := [] }).2.2.2.1 rfl

/-- Claim C7: every error of the engine body is caught at the boundary and
becomes a terminal assessment with level ERROR (distinct from NONE), score 0,
triggered false and a reason capturing the failure; analyzeThreat is total,
so nothing propagates to the caller. -/
theorem c7_error_boundary (threshold : Int) (detailed : Bool) (input : ClassificationInput)
    (remote : Except String String) (e : String)
    (h : analyzeThreatInner threshold detailed input remote = Except.error e) :
    analyzeThreat threshold detailed input remote = errorAnalysis input e ∧
    (analyzeThreat threshold detailed input remote).threat_level = "ERROR" ∧
    (analyzeThreat threshold detailed input remote).threat_score = 0 ∧
    (analyzeThreat threshold detailed input remote).threat_detected = false ∧
    (analyzeThreat threshold detailed input remote).threat_reasons =
      ["Analysis error: " ++ e] ∧
    (analyzeThreat threshold detailed input remote).threat_level ≠ "NONE" := by
  unfold analyzeThreat
  rw [h]
  refine ⟨rfl, rfl, rfl, rfl, rfl, ?_⟩
  show ("ERROR" : String) ≠ "NONE"
  decide

/-- Witness for C7: an absent classification text makes the body throw. -/
theorem c7_error_boundary_witness :
    (analyzeThreat 3 true ⟨none, none⟩ (Except.ok "")).threat_level = "ERROR" :=
  (c7_error_boundary 3 true ⟨none, none⟩ (Except.ok "")
    "Cannot read properties of undefined" rfl).2.1

/-- Claim C10: the error path carries recommended action manual_review and
confidence 0, and manual_review lies outside the five actions the normal
lookup can return. -/
theorem c10_error_action (threshold : Int) (detailed : Bool) (input : ClassificationInput)
    (remote : Except String String) (e : String)
    (h : analyzeThreatInner threshold detailed input remote = Except.error e) :
    ((analyzeThreat threshold detailed input remote).recommended_action = "manual_review" ∧
     (analyzeThreat threshold detailed input remote).confidence = 0) ∧
    (∀ (lvl : String) (s : Int),
      getRecommendedAction lvl s ≠ "manual_review" ∧
      (getRecommendedAction lvl s = "immediate_response" ∨
       getRecommendedAction lvl s = "investigate_immediately" ∨
       getRecommendedAction lvl s = "monitor_closely" ∨
       getRecommendedAction lvl s = "log_for_review" ∨
       getRecommendedAction lvl s = "none")) := by
  constructor
  · unfold analyzeThreat
    rw [h]
    exact ⟨rfl, rfl⟩
  · intro lvl s
    unfold getRecommendedAction
    by_cases h1 : lvl = "CRITICAL" <;> by_cases h2 : lvl = "HIGH" <;>
      by_cases h3 : lvl = "MEDIUM" <;> by_cases h4 : lvl = "LOW" <;>
      simp [h1, h2, h3, h4]

/-- Witness for C10 at the throwing input. -/
theorem c10_error_action_witness :
    (analyzeThreat 3 true ⟨none, none⟩ (Except.ok "")).recommended_action = "manual_review" :=
  ((c10_error_action 3 true ⟨none, none⟩ (Except.ok "")
    "Cannot read properties of undefined" rfl).1).1

/-! ## Claims about the Stream Session Manager -/

/-- After a start, the stream key is present. -/
theorem hasStream_startFrameCapture (s : StreamState) (k : String) :
    hasStream (startFrameCapture k s) k = true := by
  unfold startFrameCapture
  by_cases h : hasStream s k
  · simp [h]
  · simp only [h, if_false, reduceIte]
    unfold hasStream at h ⊢
    simp [List.any_append]

/-- An absent key has zero registered sessions. -/
theorem countKey_eq_zero_of_not_hasStream (s : StreamState) (k : String)
    (h : hasStream s k = false) : countKey k s = 0 := by
  unfold hasStream at h
  unfold countKey
  exact List.countP_eq_zero.mpr (fun e he => by
    have := List.any_eq_false.mp h e he
    simpa using this)

/-- Claim C8: startFrameCapture is idempotent: a second start for the same
key is a no-op; starting an absent key with fresh timer ids yields exactly
one session and exactly one scheduled recurring ticker for that key; and one
start or stop preserves the at-most-one-session-per-key invariant. -/
theorem c8_start_idempotent (s : StreamState) (k : String) :
    startFrameCapture k (startFrameCapture k s) = startFrameCapture k s ∧
    (hasStream s k = false → (∀ i ∈ s.intervals, i < s.nextId) →
      countKey k (startFrameCapture k (startFrameCapture k s)) = 1 ∧
      (startFrameCapture k (startFrameCapture k s)).intervals.count s.nextId = 1) ∧
    (∀ k' : String, countKey k' s ≤ 1 →
      countKey k' (startFrameCapture k s) ≤ 1 ∧ countKey k' (stopFrameCapture k s) ≤ 1) := by
  have hidem : startFrameCapture k (startFrameCapture k s) = startFrameCapture k s := by
    rw [startFrameCapture, hasStream_startFrameCapture s k]
    simp
  refine ⟨hidem, ?_, ?_⟩
  · intro habs hfresh
    rw [hidem]
    constructor
    · rw [startFrameCapture, habs]
      unfold countKey
      simp only [Bool.false_eq_true, if_false]
      rw [List.countP_append]
      have h0 : countKey k s = 0 := countKey_eq_zero_of_not_hasStream s k habs
      unfold countKey at h0
      simp [h0]
    · rw [startFrameCapture, habs]
      simp only [Bool.false_eq_true, if_false]
      rw [List.count_append]
      have h0 : s.intervals.count s.nextId = 0 :=
        List.count_eq_zero.mpr (fun hmem => lt_irrefl _ (hfresh _ hmem))
      simp [h0]
  · intro k' hk'
    constructor
    · by_cases h : hasStream s k
      · rw [startFrameCapture, h]
        simpa using hk'
      · have hb : hasStream s k = false := by simpa using h
        rw [startFrameCapture, hb]
        simp only [Bool.false_eq_true, if_false]
        unfold countKey at hk' ⊢
        rw [List.countP_append]
        by_cases hkk : (k == k') = true
        · have hke : k = k' := by simpa using hkk
          subst hke
          have h0 : countKey k s = 0 := countKey_eq_zero_of_not_hasStream s k hb
          unfold countKey at h0
          simp [h0]
        · simp only [List.countP_cons, List.countP_nil]
          simp [hkk]
          omega
    · unfold stopFrameCapture
      cases hf : s.activeStreams.find? (fun e => e.1 == k) with
      | none => exact hk'
      | some e =>
        unfold countKey at hk' ⊢
        calc (s.activeStreams.filter (fun e2 => !(e2.1 == k))).countP (fun e => e.1 == k')
            ≤ s.activeStreams.countP (fun e => e.1 == k') :=
              (List.filter_sublist _).countP_le _
          _ ≤ 1 := hk'

/-- Witness for C8 from the empty manager state. -/
theorem c8_start_idempotent_witness :
    countKey "live/a" (startFrameCapture "live/a"
      (startFrameCapture "live/a" ⟨[], 0, []⟩)) = 1 :=
  ((c8_start_idempotent ⟨[], 0, []⟩ "live/a").2.1 (by decide) (by simp)).1

/-! ## Lemmas about the Retention Manager -/

theorem sortedFrameFiles_perm (files : List FileEnt) :
    List.Perm (sortedFrameFiles files) (files.filter isFrameFile) :=
  List.perm_insertionSort byMtime _

theorem sortedFrameFiles_sorted (files : List FileEnt) :
    List.Sorted byMtime (sortedFrameFiles files) :=
  List.sorted_insertionSort byMtime _

theorem mem_sortedFrameFiles {files : List FileEnt} {x : FileEnt} :
    x ∈ sortedFrameFiles files ↔ x ∈ files ∧ isFrameFile x := by
  rw [(sortedFrameFiles_perm files).mem_iff, List.mem_filter]

/-- Distinct file names survive filtering and sorting. -/
theorem names_nodup_sorted (files : List FileEnt)
    (h : (files.map (fun f => f.name)).Nodup) :
    ((sortedFrameFiles files).map (fun f => f.name)).Nodup := by
  have h1 : ((files.filter isFrameFile).map (fun f => f.name)).Nodup :=
    h.sublist ((List.filter_sublist files).map _)
  exact ((sortedFrameFiles_perm files).map (fun f => f.name)).nodup_iff.mpr h1

/-- Distinct modification times survive filtering and sorting. -/
theorem mtimes_nodup_sorted (files : List FileEnt)
    (h : (files.map (fun f => f.mtime)).Nodup) :
    ((sortedFrameFiles files).map (fun f => f.mtime)).Nodup := by
  have h1 : ((files.filter isFrameFile).map (fun f => f.mtime)).Nodup :=
    h.sublist ((List.filter_sublist files).map _)
  exact ((sortedFrameFiles_perm files).map (fun f => f.mtime)).nodup_iff.mpr h1

theorem framesToDelete_subset (files : List FileEnt) (maxFiles : Nat) :
    ∀ x ∈ framesToDelete files maxFiles, x ∈ sortedFrameFiles files := by
  intro x hx
  simp only [framesToDelete] at hx
  by_cases hlen : (sortedFrameFiles files).length > maxFiles
  · rw [if_pos hlen] at hx
    exact List.mem_of_mem_take hx
  · rw [if_neg hlen] at hx
    cases hx

/-- With distinct names, a name sits among the successfully deleted names
exactly when its file sits in the deletion slice and its unlink succeeds. -/
theorem contains_deletedNames_iff (files : List FileEnt) (maxFiles : Nat)
    (unlinkFails : String → Bool) (h : (files.map (fun f => f.name)).Nodup)
    (f : FileEnt) (hf : f ∈ files) :
    (deletedNames files maxFiles unlinkFails).contains f.name = true ↔
      f ∈ framesToDelete files maxFiles ∧ unlinkFails f.name = false := by
  unfold deletedNames
  constructor
  · intro hc
    have hmem : f.name ∈ ((framesToDelete files maxFiles).filter
        (fun x => !unlinkFails x.name)).map (fun x => x.name) := by
      simpa [List.contains] using hc
    obtain ⟨y, hy, hyn⟩ := List.mem_map.mp hmem
    obtain ⟨hyD, hyF⟩ := List.mem_filter.mp hy
    have hyfiles : y ∈ files :=
      (mem_sortedFrameFiles.mp (framesToDelete_subset files maxFiles y hyD)).1
    have hyf : y = f := List.inj_on_of_nodup_map h hyfiles hf hyn
    subst hyf
    exact ⟨hyD, by simpa using hyF⟩
  · intro ⟨hD, hF⟩
    have : f.name ∈ ((framesToDelete files maxFiles).filter
        (fun x => !unlinkFails x.name)).map (fun x => x.name) :=
      List.mem_map.mpr ⟨f, List.mem_filter.mpr ⟨hD, by simp [hF]⟩, rfl⟩
    simpa [List.contains] using this

/-- With no unlink failures, the sweep retains exactly min(count, max)
matching files. -/
theorem cleanupFrames_count (files : List FileEnt) (maxFiles : Nat)
    (unlinkFails : String → Bool)
    (hnames : (files.map (fun f => f.name)).Nodup)
    (hfail : ∀ n, unlinkFails n = false) :
    ((cleanupFrames files maxFiles unlinkFails).filter isFrameFile).length =
      min (files.filter isFrameFile).length maxFiles := by
  have hDN : deletedNames files maxFiles unlinkFails
      = (framesToDelete files maxFiles).map (fun f => f.name) := by
    unfold deletedNames
    simp [hfail]
  have hcomm : (cleanupFrames files maxFiles unlinkFails).filter isFrameFile =
      (files.filter isFrameFile).filter
        (fun f => !((deletedNames files maxFiles unlinkFails).contains f.name)) := by
    unfold cleanupFrames
    exact List.filter_comm _ _ _
  rw [hcomm, ← List.countP_eq_length_filter,
    (sortedFrameFiles_perm files).symm.countP_eq, ← (sortedFrameFiles_perm files).length_eq]
  by_cases hlen : (sortedFrameFiles files).length > maxFiles
  · have hD : framesToDelete files maxFiles =
        (sortedFrameFiles files).take ((sortedFrameFiles files).length - maxFiles) := by
      unfold framesToDelete
      rw [if_pos hlen]
    have hsplitS : (sortedFrameFiles files).countP
        (fun f => !((deletedNames files maxFiles unlinkFails).contains f.name)) =
        ((sortedFrameFiles files).take ((sortedFrameFiles files).length - maxFiles)).countP
          (fun f => !((deletedNames files maxFiles unlinkFails).contains f.name)) +
        ((sortedFrameFiles files).drop ((sortedFrameFiles files).length - maxFiles)).countP
          (fun f => !((deletedNames files maxFiles unlinkFails).contains f.name)) := by
      conv_lhs => rw [← List.take_append_drop ((sortedFrameFiles files).length - maxFiles)
        (sortedFrameFiles files)]
      rw [List.countP_append]
    have htake : ((sortedFrameFiles files).take
        ((sortedFrameFiles files).length - maxFiles)).countP
          (fun f => !((deletedNames files maxFiles unlinkFails).contains f.name)) = 0 := by
      apply List.countP_eq_zero.mpr
      intro x hx
      have hxD : x ∈ framesToDelete files maxFiles := by rw [hD]; exact hx
      have hmem : x.name ∈ deletedNames files maxFiles unlinkFails := by
        rw [hDN]
        exact List.mem_map.mpr ⟨x, hxD, rfl⟩
      simp [List.contains]
      exact hmem
    have hnd : (((sortedFrameFiles files).take
          ((sortedFrameFiles files).length - maxFiles)).map (fun f => f.name) ++
        ((sortedFrameFiles files).drop
          ((sortedFrameFiles files).length - maxFiles)).map (fun f => f.name)).Nodup := by
      rw [← List.map_append, List.take_append_drop]
      exact names_nodup_sorted files hnames
    have hdrop : ((sortedFrameFiles files).drop
        ((sortedFrameFiles files).length - maxFiles)).countP
          (fun f => !((deletedNames files maxFiles unlinkFails).contains f.name)) =
        ((sortedFrameFiles files).drop ((sortedFrameFiles files).length - maxFiles)).length := by
      apply List.countP_eq_length.mpr
      intro x hx
      have hns : x.name ∉ deletedNames files maxFiles unlinkFails := by
        rw [hDN]
        intro hmem
        obtain ⟨y, hyD, hyn⟩ := List.mem_map.mp hmem
        have hyT : y ∈ (sortedFrameFiles files).take
            ((sortedFrameFiles files).length - maxFiles) := by rw [hD] at hyD; exact hyD
        have hdisj := (List.nodup_append.mp hnd).2.2
        exact hdisj (List.mem_map.mpr ⟨y, hyT, hyn⟩) (List.mem_map.mpr ⟨x, hx, rfl⟩)
      simp [List.contains]
      exact hns
    rw [hsplitS, htake, hdrop, List.length_drop]
    omega
  · have hD : framesToDelete files maxFiles = [] := by
      unfold framesToDelete
      rw [if_neg hlen]
    have hDnil : deletedNames files maxFiles unlinkFails = [] := by rw [hDN, hD]; rfl
    have hall : (sortedFrameFiles files).countP
        (fun f => !((deletedNames files maxFiles unlinkFails).contains f.name)) =
        (sortedFrameFiles files).length := by
      apply List.countP_eq_length.mpr
      intro x _
      rw [hDnil]
      rfl
    rw [hall]
    omega

/-- Pointwise sweep outcome: a file survives exactly when it is outside the
deletion slice or its own unlink fails; other failures do not shield it. -/
theorem cleanupFrames_mem_iff (files : List FileEnt) (maxFiles : Nat)
    (unlinkFails : String → Bool) (hnames : (files.map (fun f => f.name)).Nodup)
    (f : FileEnt) (hf : f ∈ files) :
    f ∈ cleanupFrames files maxFiles unlinkFails ↔
      ¬(f ∈ framesToDelete files maxFiles ∧ unlinkFails f.name = false) := by
  unfold cleanupFrames
  rw [List.mem_filter]
  constructor
  · intro hmem hcontra
    have hc := (contains_deletedNames_iff files maxFiles unlinkFails hnames f hf).mpr hcontra
    rw [hc] at hmem
    simp at hmem
  · intro hn
    refine ⟨hf, ?_⟩
    by_cases hc : (deletedNames files maxFiles unlinkFails).contains f.name = true
    · exact absurd ((contains_deletedNames_iff files maxFiles unlinkFails hnames f hf).mp hc) hn
    · rw [Bool.not_eq_true] at hc
      rw [hc]
      rfl

/-- With no failures and distinct modification times, every file the sweep
removed is strictly older than every matching file it retained. -/
theorem cleanupFrames_retained_newer (files : List FileEnt) (maxFiles : Nat)
    (unlinkFails : String → Bool)
    (hnames : (files.map (fun f => f.name)).Nodup)
    (hmt : (files.map (fun f => f.mtime)).Nodup)
    (hfail : ∀ n, unlinkFails n = false)
    (d : FileEnt) (hd : d ∈ files) (hdel : d ∉ cleanupFrames files maxFiles unlinkFails)
    (r : FileEnt) (hr : r ∈ cleanupFrames files maxFiles unlinkFails)
    (hrf : isFrameFile r = true) :
    d.mtime < r.mtime := by
  have hdD : d ∈ framesToDelete files maxFiles := by
    by_contra hnd
    exact hdel ((cleanupFrames_mem_iff files maxFiles unlinkFails hnames d hd).mpr
      (fun hcontra => hnd hcontra.1))
  by_cases hlen : (sortedFrameFiles files).length > maxFiles
  · have hD : framesToDelete files maxFiles =
        (sortedFrameFiles files).take ((sortedFrameFiles files).length - maxFiles) := by
      unfold framesToDelete
      rw [if_pos hlen]
    have hdT : d ∈ (sortedFrameFiles files).take
        ((sortedFrameFiles files).length - maxFiles) := by rw [hD] at hdD; exact hdD
    have hrfiles : r ∈ files := by
      unfold cleanupFrames at hr
      exact List.mem_of_mem_filter hr
    have hrnD : r ∉ framesToDelete files maxFiles := by
      intro hrD
      exact ((cleanupFrames_mem_iff files maxFiles unlinkFails hnames r hrfiles).mp hr)
        ⟨hrD, hfail r.name⟩
    have hrS : r ∈ sortedFrameFiles files := mem_sortedFrameFiles.mpr ⟨hrfiles, hrf⟩
    have hrDrop : r ∈ (sortedFrameFiles files).drop
        ((sortedFrameFiles files).length - maxFiles) := by
      have hsum : r ∈ (sortedFrameFiles files).take
          ((sortedFrameFiles files).length - maxFiles) ++
          (sortedFrameFiles files).drop ((sortedFrameFiles files).length - maxFiles) := by
        rw [List.take_append_drop]
        exact hrS
      rcases List.mem_append.mp hsum with hT | hDr
      · exact absurd (by rw [hD]; exact hT) hrnD
      · exact hDr
    have hle : byMtime d r := by
      have h2 : ((sortedFrameFiles files).take ((sortedFrameFiles files).length - maxFiles) ++
          (sortedFrameFiles files).drop
            ((sortedFrameFiles files).length - maxFiles)).Pairwise byMtime := by
        rw [List.take_append_drop]
        exact sortedFrameFiles_sorted files
      exact (List.pairwise_append.mp h2).2.2 d hdT r hrDrop
    have hne : d.mtime ≠ r.mtime := by
      have hndmt : (((sortedFrameFiles files).take
            ((sortedFrameFiles files).length - maxFiles)).map (fun f => f.mtime) ++
          ((sortedFrameFiles files).drop
            ((sortedFrameFiles files).length - maxFiles)).map (fun f => f.mtime)).Nodup := by
        rw [← List.map_append, List.take_append_drop]
        exact mtimes_nodup_sorted files hmt
      have hdisj := (List.nodup_append.mp hndmt).2.2
      intro heq
      exact hdisj (List.mem_map.mpr ⟨d, hdT, rfl⟩) (List.mem_map.mpr ⟨r, hrDrop, heq.symm⟩)
    exact lt_of_le_of_ne hle hne
  · have hD : framesToDelete files maxFiles = [] := by
      unfold framesToDelete
      rw [if_neg hlen]
    rw [hD] at hdD
    cases hdD

/-- Claim C9: with distinct file names, one sweep of a managed directory
retains exactly min(count, maxFiles) matching files when no deletion fails;
with distinct modification times the retained matching files are exactly the
most recently modified ones (every removed file is strictly older than every
retained matching file); and each file of the deletion slice is unlinked
independently, so one failed unlink spares only that file, never the rest. -/
theorem c9_retention_sweep (files : List FileEnt) (maxFiles : Nat)
    (unlinkFails : String → Bool)
    (hnames : (files.map (fun f => f.name)).Nodup) :
    ((∀ n, unlinkFails n = false) →
      ((cleanupFrames files maxFiles unlinkFails).filter isFrameFile).length =
        min (files.filter isFrameFile).length maxFiles) ∧
    ((∀ n, unlinkFails n = false) → (files.map (fun f => f.mtime)).Nodup →
      ∀ d ∈ files, d ∉ cleanupFrames files maxFiles unlinkFails →
        ∀ r ∈ cleanupFrames files maxFiles unlinkFails, isFrameFile r = true →
          d.mtime < r.mtime) ∧
    (∀ f ∈ files, f ∈ cleanupFrames files maxFiles unlinkFails ↔
      ¬(f ∈ framesToDelete files maxFiles ∧ unlinkFails f.name = false)) := by
  refine ⟨cleanupFrames_count files maxFiles unlinkFails hnames, ?_, ?_⟩
  · intro hfail hmt d hd hdel r hr hrf
    exact cleanupFrames_retained_newer files maxFiles unlinkFails hnames hmt hfail
      d hd hdel r hr hrf
  · intro f hf
    exact cleanupFrames_mem_iff files maxFiles unlinkFails hnames f hf

/-- Witness for C9 at a four-entry directory with maximum two retained. -/
theorem c9_retention_sweep_witness :
    ((cleanupFrames [⟨"frame-a", 5⟩, ⟨"frame-b", 2⟩, ⟨"other", 1⟩, ⟨"frame-c", 9⟩] 2
      (fun _ => false)).filter isFrameFile).length =
    min (([⟨"frame-a", 5⟩, ⟨"frame-b", 2⟩, ⟨"other", 1⟩,
      (⟨"frame-c", 9⟩ : FileEnt)].filter isFrameFile).length) 2 :=
  (c9_retention_sweep [⟨"frame-a", 5⟩, ⟨"frame-b", 2⟩, ⟨"other", 1⟩, ⟨"frame-c", 9⟩] 2
    (fun _ => false) (by decide)).1 (fun _ => rfl)
